import Mathlib

/-!
Shallow embedding of the frontend audit client
(src/smsly-rust/smsly-services/src/audit/frontend/audit.ts).

The client normalizes a partially specified `AuditEvent` into a fully
populated envelope, serializes it with `JSON.stringify`, and issues one
HTTP POST per call. JavaScript-specific semantics that matter here are
modelled explicitly: the truthiness test performed by the `||` defaulting
operator (the empty string is falsy, every object is truthy), the fact
that `JSON.stringify` drops object properties whose value is `undefined`
and throws a `TypeError` on BigInt values, and the `try`/`catch` that
wraps only the `fetch` call (the serialization happens before the `try`).
Effects are made explicit parameters: the timestamp computed at call time
is a string argument, and the outcome of the single `fetch` call is an
`Except` value (either the response it resolved with, or the error it
threw).
-/

namespace Audit

/-- A JavaScript value that may occur in a payload typed
`Record<string, any>`. This is the fragment relevant to JSON
serialization: strings, numbers, booleans, `null`, `undefined`
(dropped by `JSON.stringify` inside objects) and BigInt
(on which `JSON.stringify` throws a `TypeError`). -/
inductive JsValue where
  | str (s : String)
  | num (n : Int)
  | jsBool (b : Bool)
  | null
  | undefined
  | bigint (n : Int)
deriving DecidableEq, Repr

/-- The `outcome` enum of the `AuditEvent` interface:
`'success' | 'failure' | 'blocked'`. -/
inductive Outcome where
  | success
  | failure
  | blocked
deriving DecidableEq, Repr

/-- The wire string of an `Outcome` value. -/
def Outcome.toString : Outcome → String
  | .success => "success"
  | .failure => "failure"
  | .blocked => "blocked"

/-- The caller-supplied `AuditEvent` interface of audit.ts. Optional
fields (`?:` in TypeScript) are `Option`s; an absent field is `none`. -/
structure AuditEvent where
  event_type : String
  action : String
  actor_id : Option String := none
  resource_type : Option String := none
  resource_id : Option String := none
  outcome : Option Outcome := none
  category : Option String := none
  severity : Option String := none
  payload : Option (List (String × JsValue)) := none
deriving DecidableEq, Repr

/-- The client's static configuration: `gatewayUrl` and `serviceName`,
read once in the constructor. -/
structure ClientConfig where
  gatewayUrl : String
  serviceName : String
deriving DecidableEq, Repr

/-- The configuration produced by the constructor when neither
environment variable is set: the fallback literals of audit.ts. -/
def defaultConfig : ClientConfig :=
  { gatewayUrl := "http://localhost:8000", serviceName := "smsly-frontend" }

/-- JavaScript truthiness of an optional string: `undefined` is falsy,
and so is the empty string; every other string is truthy. This is the
test performed by `event.actor_id ? ... : ...` and by `||`. -/
def strTruthy : Option String → Bool
  | none => false
  | some s => s ≠ ""

/-- `o || d` for an optional string `o`: the supplied string when it is
truthy (present and non-empty), else the default `d`. -/
def orDefault (o : Option String) (d : String) : String :=
  match o with
  | none => d
  | some s => if s = "" then d else s

/-- `event.outcome || 'success'`: every member of the outcome enum is a
non-empty string, hence truthy, so a present outcome is always kept. -/
def outcomeOrSuccess : Option Outcome → Outcome
  | none => .success
  | some o => o

/-- `event.payload || \x7b\x7d`: every object is truthy in JavaScript, so a
present payload is always kept, even the empty mapping. -/
def payloadOrEmpty : Option (List (String × JsValue)) → List (String × JsValue)
  | none => []
  | some p => p

/-- The fully populated envelope object built inside `logEvent`
(the argument of `JSON.stringify`, lines 34-46 of audit.ts). -/
structure Envelope where
  service : String
  event_type : String
  event_category : String
  severity : String
  action : String
  actor_id : String
  actor_type : String
  resource_type : Option String
  resource_id : Option String
  outcome : Outcome
  payload : List (String × JsValue)
deriving DecidableEq, Repr

/-- The envelope construction of `logEvent`: defaulting via `||` and the
`actor_type` derivation from the request's `actor_id` field. -/
def buildEnvelope (cfg : ClientConfig) (event : AuditEvent) : Envelope :=
  { service := cfg.serviceName
    event_type := event.event_type
    event_category := orDefault event.category ("general")
    severity := orDefault event.severity ("info")
    action := event.action
    actor_id := orDefault event.actor_id ("anonymous")
    actor_type := if strTruthy event.actor_id then "user" else "system"
    resource_type := event.resource_type
    resource_id := event.resource_id
    outcome := outcomeOrSuccess event.outcome
    payload := payloadOrEmpty event.payload }

/-- One hexadecimal digit (lower case), as emitted in a JSON
unicode escape. -/
def hexDigit (n : Nat) : Char :=
  if n < 10 then Char.ofNat (48 + n) else Char.ofNat (87 + n)

/-- Four hexadecimal digits, as in a JSON unicode escape. -/
def hex4 (n : Nat) : String :=
  String.mk [hexDigit (n / 4096 % 16), hexDigit (n / 256 % 16),
             hexDigit (n / 16 % 16), hexDigit (n % 16)]

/-- The JSON escaping of a single character, per `JSON.stringify`:
quote and backslash are escaped, the named control escapes are used
where they exist, other control characters get a unicode escape. -/
def escapeChar (c : Char) : String :=
  if c = Char.ofNat 34 then "\\" ++ String.singleton (Char.ofNat 34)
  else if c = Char.ofNat 92 then "\\\\"
  else if c = Char.ofNat 8 then "\\b"
  else if c = Char.ofNat 9 then "\\t"
  else if c = Char.ofNat 10 then "\\n"
  else if c = Char.ofNat 12 then "\\f"
  else if c = Char.ofNat 13 then "\\r"
  else if c.toNat < 32 then "\\u" ++ hex4 c.toNat
  else String.singleton c

/-- The JSON text of a string value: quoted and escaped. -/
def jsonString (s : String) : String :=
  String.singleton (Char.ofNat 34) ++ String.join (s.data.map escapeChar)
    ++ String.singleton (Char.ofNat 34)

/-- `JSON.stringify` on a single object-property value: `some` JSON text,
`none` when the property is dropped (`undefined`), or the `TypeError`
thrown on a BigInt. -/
def jsonOfValue : JsValue → Except String (Option String)
  | .str s => .ok (some (jsonString s))
  | .num n => .ok (some (ToString.toString n))
  | .jsBool b => .ok (some (if b then "true" else "false"))
  | .null => .ok (some ("null"))
  | .undefined => .ok none
  | .bigint _ => .error ("TypeError: Do not know how to serialize a BigInt")

/-- The `key:value` members of the serialized payload object, in
property order, with `undefined`-valued properties dropped; a BigInt
value anywhere makes the whole serialization throw. -/
def payloadParts : List (String × JsValue) → Except String (List String)
  | [] => Except.ok []
  | (k, v) :: rest =>
    match jsonOfValue v with
    | .error e => .error e
    | .ok none => payloadParts rest
    | .ok (some s) =>
      match payloadParts rest with
      | .error e => .error e
      | .ok tail => .ok ((jsonString k ++ ":" ++ s) :: tail)

/-- A JSON object text from its already-serialized members. -/
def jsonObj (parts : List String) : String :=
  "\x7b" ++ String.intercalate (",") parts ++ "\x7d"

/-- `JSON.stringify` of the envelope (line 34 of audit.ts): properties
in the order of the object literal; `resource_type` and `resource_id`
are dropped when `undefined`; a BigInt inside the payload makes the
call throw. -/
def serializeEnvelope (e : Envelope) : Except String String :=
  match payloadParts e.payload with
  | .error err => .error err
  | .ok pp =>
    .ok (jsonObj
      ([jsonString ("service") ++ ":" ++ jsonString e.service,
        jsonString ("event_type") ++ ":" ++ jsonString e.event_type,
        jsonString ("event_category") ++ ":" ++ jsonString e.event_category,
        jsonString ("severity") ++ ":" ++ jsonString e.severity,
        jsonString ("action") ++ ":" ++ jsonString e.action,
        jsonString ("actor_id") ++ ":" ++ jsonString e.actor_id,
        jsonString ("actor_type") ++ ":" ++ jsonString e.actor_type]
       ++ (match e.resource_type with
           | none => []
           | some s => [jsonString ("resource_type") ++ ":" ++ jsonString s])
       ++ (match e.resource_id with
           | none => []
           | some s => [jsonString ("resource_id") ++ ":" ++ jsonString s])
       ++ [jsonString ("outcome") ++ ":" ++ jsonString e.outcome.toString,
           jsonString ("payload") ++ ":" ++ jsonObj pp]))

/-- The HTTP request handed to `fetch`. -/
structure HttpRequest where
  url : String
  method : String
  headers : List (String × String)
  body : String
deriving DecidableEq, Repr

/-- A `fetch` response; per the Fetch API only `status` (and the derived
`ok`) is consulted, never the body. -/
structure Response where
  status : Nat
  respBody : String := ""
deriving DecidableEq, Repr

/-- `Response.ok` of the Fetch API: status in the range 200-299. -/
def Response.ok (r : Response) : Bool :=
  decide (200 ≤ r.status) && decide (r.status ≤ 299)

/-- What one `logEvent` call did: the request handed to the single
`fetch` call, when that call was reached, and the value the `async`
function settled with — `Except.ok` a boolean on a normal return,
`Except.error` when an exception escaped to the caller. -/
structure LogResult where
  request : Option HttpRequest
  result : Except String Bool
deriving Repr

/-- `logEvent` (lines 31-64 of audit.ts). `timestamp` is the ISO string
computed at call time; `fetchResult` is the behaviour of the one `fetch`
call: the response it resolved with, or the error it threw. The
`JSON.stringify` call happens before the `try` block, so a serialization
fault escapes; inside the `try`, a thrown fetch error is caught
(`console.error` diagnostic) and mapped to `false`, and a response is
mapped to `response.ok`. -/
def logEvent (cfg : ClientConfig) (event : AuditEvent) (timestamp : String)
    (fetchResult : Except String Response) : LogResult :=
  match serializeEnvelope (buildEnvelope cfg event) with
  | .error e => { request := none, result := .error e }
  | .ok body =>
    let req : HttpRequest :=
      { url := cfg.gatewayUrl ++ "/api/v1/audit/events"
        method := "POST"
        headers := [("Content-Type", "application/json"),
                    ("X-Service-Name", cfg.serviceName),
                    ("X-Service-Timestamp", timestamp)]
        body := body }
    match fetchResult with
    | .ok response => { request := some req, result := .ok response.ok }
    | .error _ => { request := some req, result := .ok false }

/-- `logPageView` (lines 67-76). -/
def logPageView (cfg : ClientConfig) (page : String) (userId : Option String)
    (timestamp : String) (fetchResult : Except String Response) : LogResult :=
  logEvent cfg
    { event_type := "page.view"
      action := "view"
      actor_id := userId
      resource_type := some ("page")
      resource_id := some page
      category := some ("general") }
    timestamp fetchResult

/-- `logUserAction` (lines 78-86). -/
def logUserAction (cfg : ClientConfig) (action : String) (userId : String)
    (details : Option (List (String × JsValue)))
    (timestamp : String) (fetchResult : Except String Response) : LogResult :=
  logEvent cfg
    { event_type := "user." ++ action
      action := action
      actor_id := some userId
      category := some ("general")
      payload := details }
    timestamp fetchResult

/-- The payload value of an optional string argument: the string when
supplied, `undefined` otherwise. -/
def jsOfOptString : Option String → JsValue
  | some s => .str s
  | none => .undefined

/-- `logLogin` (lines 88-98). -/
def logLogin (cfg : ClientConfig) (userId : String) (success : Bool)
    (ip : Option String)
    (timestamp : String) (fetchResult : Except String Response) : LogResult :=
  logEvent cfg
    { event_type := "auth.login"
      action := "login"
      actor_id := some userId
      outcome := some (if success then Outcome.success else Outcome.failure)
      category := some ("auth")
      severity := some (if success then "info" else "warning")
      payload := some [("ip", jsOfOptString ip)] }
    timestamp fetchResult

/-- `logApiCall` (lines 100-110). `statusCode` is a JavaScript number. -/
def logApiCall (cfg : ClientConfig) (endpoint : String) (method : String)
    (statusCode : Int) (userId : Option String)
    (timestamp : String) (fetchResult : Except String Response) : LogResult :=
  logEvent cfg
    { event_type := "api.call"
      action := method ++ " " ++ endpoint
      actor_id := userId
      resource_type := some ("api")
      resource_id := some endpoint
      outcome := some (if statusCode < 400 then Outcome.success else Outcome.failure)
      payload := some [("status_code", JsValue.num statusCode)] }
    timestamp fetchResult

/-- The object-spread semantics of an object literal extended with
`...ext`: a key of `ext` overrides the value of an earlier key in
place, keys new to `ext` are appended in order. -/
def objExtend (base ext : List (String × JsValue)) : List (String × JsValue) :=
  (base.map fun kv =>
    match ext.find? (fun e => e.1 = kv.1) with
    | some e => (kv.1, e.2)
    | none => kv)
  ++ ext.filter (fun e => base.all (fun kv => kv.1 != e.1))

/-- `logError` (lines 112-121). -/
def logError (cfg : ClientConfig) (error : String)
    (context : Option (List (String × JsValue)))
    (timestamp : String) (fetchResult : Except String Response) : LogResult :=
  logEvent cfg
    { event_type := "error.client"
      action := "error"
      outcome := some Outcome.failure
      severity := some ("error")
      category := some ("security")
      payload := some (objExtend [("error", JsValue.str error)] (context.getD [])) }
    timestamp fetchResult

/-- A minimal request: both required fields, nothing else. -/
def sampleEvent : AuditEvent := { event_type := "t", action := "a" }

/-- The serialized envelope of `sampleEvent` under the default
configuration. -/
def sampleBody : String :=
  match serializeEnvelope (buildEnvelope defaultConfig sampleEvent) with
  | .ok b => b
  | .error _ => ""

theorem sample_serialize :
    serializeEnvelope (buildEnvelope defaultConfig sampleEvent) = Except.ok sampleBody := rfl

/-- A request whose payload holds a BigInt value, on which
`JSON.stringify` throws. -/
def bigintEvent : AuditEvent :=
  { event_type := "t", action := "a", payload := some [("n", JsValue.bigint 1)] }

/-- When the envelope serializes to `b`, the one `fetch` call receives the
POST request with the three headers and body `b`, whatever the fetch
outcome is. -/
theorem logEvent_request_ok (cfg : ClientConfig) (e : AuditEvent) (t : String)
    (fr : Except String Response) (b : String)
    (hb : serializeEnvelope (buildEnvelope cfg e) = Except.ok b) :
    (logEvent cfg e t fr).request =
      some { url := cfg.gatewayUrl ++ "/api/v1/audit/events"
             method := "POST"
             headers := [("Content-Type", "application/json"),
                         ("X-Service-Name", cfg.serviceName),
                         ("X-Service-Timestamp", t)]
             body := b } := by
  cases fr <;> simp [logEvent, hb]

/-- When the envelope serializes to `b`, the call returns normally:
`response.ok` on a response, `false` on a thrown fetch error. -/
theorem logEvent_result_ok (cfg : ClientConfig) (e : AuditEvent) (t : String)
    (fr : Except String Response) (b : String)
    (hb : serializeEnvelope (buildEnvelope cfg e) = Except.ok b) :
    (logEvent cfg e t fr).result =
      Except.ok (match fr with
                 | .ok response => Response.ok response
                 | .error _ => false) := by
  cases fr <;> simp [logEvent, hb]

/-- When serialization throws, no fetch happens and the exception
escapes the call. -/
theorem logEvent_serialize_err (cfg : ClientConfig) (e : AuditEvent) (t : String)
    (fr : Except String Response) (err : String)
    (hb : serializeEnvelope (buildEnvelope cfg e) = Except.error err) :
    (logEvent cfg e t fr).request = none ∧
    (logEvent cfg e t fr).result = Except.error err := by
  cases fr <;> simp [logEvent, hb]

/-- C1 counterexample: the request that supplies `actor_id` as the empty
string. Its `actor_id` field is present (`isSome`), yet the envelope
carries `actor_id` equal to `anonymous` (not the supplied value) and
`actor_type` equal to `system` (not `user`), because `||` and `?:` test
truthiness and the empty string is falsy. -/
theorem claim_C1_counterexample :
    ({ event_type := "t", action := "a", actor_id := some ("") } : AuditEvent).actor_id.isSome
      = true ∧
    (buildEnvelope defaultConfig
      { event_type := "t", action := "a", actor_id := some ("") }).actor_id = "anonymous" ∧
    (buildEnvelope defaultConfig
      { event_type := "t", action := "a", actor_id := some ("") }).actor_type = "system" ∧
    decide (("anonymous" : String) = "") = false ∧
    decide (("system" : String) = "user") = false :=
  ⟨rfl, rfl, rfl, by decide, by decide⟩

/-- C1 (amended): for every request whose `actor_id` is present and
non-empty, the envelope carries the supplied `actor_id` and
`actor_type` equal to `user`; for every request whose `actor_id` is
absent or the empty string, the envelope carries `actor_id` equal to
`anonymous` and `actor_type` equal to `system`. The derivation reads
the request's `actor_id` field (by JavaScript truthiness), never the
defaulted envelope field. -/
theorem claim_C1 (cfg : ClientConfig) (e : AuditEvent) :
    (∀ s : String, e.actor_id = some s → s ≠ "" →
      (buildEnvelope cfg e).actor_id = s ∧ (buildEnvelope cfg e).actor_type = "user") ∧
    ((e.actor_id = none ∨ e.actor_id = some ("")) →
      (buildEnvelope cfg e).actor_id = "anonymous" ∧
      (buildEnvelope cfg e).actor_type = "system") := by
  constructor
  · intro s hs hne
    constructor <;> simp [buildEnvelope, orDefault, strTruthy, hs, hne]
  · rintro (h | h) <;> constructor <;> simp [buildEnvelope, orDefault, strTruthy, h]

/-- C1 witness: a supplied non-empty `actor_id` is kept with
`actor_type` equal to `user`; an absent one defaults to `anonymous`
with `actor_type` equal to `system`. -/
theorem claim_C1_witness :
    ((buildEnvelope defaultConfig
        { event_type := "t", action := "a", actor_id := some ("u1") }).actor_id = "u1" ∧
     (buildEnvelope defaultConfig
        { event_type := "t", action := "a", actor_id := some ("u1") }).actor_type = "user") ∧
    ((buildEnvelope defaultConfig { event_type := "t", action := "a" }).actor_id = "anonymous" ∧
     (buildEnvelope defaultConfig { event_type := "t", action := "a" }).actor_type = "system") :=
  ⟨(claim_C1 defaultConfig
      { event_type := "t", action := "a", actor_id := some ("u1") }).1 ("u1") rfl (by decide),
   (claim_C1 defaultConfig { event_type := "t", action := "a" }).2 (Or.inl rfl)⟩

/-- C2: the claim is right and the code is wrong. `JSON.stringify` runs
before the `try` block (line 34 vs line 48 of audit.ts), so a
serialization fault — here a BigInt payload value — propagates to the
caller as a thrown `TypeError` instead of being caught and mapped to
`false`: the call settles with an error, no boolean is returned, and
the fetch is never reached. -/
theorem claim_C2_bug :
    (logEvent defaultConfig bigintEvent "2026-10-11T00:00:00.000Z"
        (Except.ok { status := 200 })).result
      = Except.error ("TypeError: Do not know how to serialize a BigInt") ∧
    (logEvent defaultConfig bigintEvent "2026-10-11T00:00:00.000Z"
        (Except.ok { status := 200 })).request = none :=
  ⟨rfl, rfl⟩

/-- C3 counterexample: a request whose `category` is present but equal
to the empty string. The field is present (`isSome`), yet the envelope
carries `event_category` equal to `general`, not the supplied value,
because `||` tests truthiness. -/
theorem claim_C3_counterexample :
    ({ event_type := "t", action := "a", category := some ("") } : AuditEvent).category.isSome
      = true ∧
    (buildEnvelope defaultConfig
      { event_type := "t", action := "a", category := some ("") }).event_category = "general" ∧
    decide (("general" : String) = "") = false :=
  ⟨rfl, rfl, by decide⟩

/-- C3 (amended): a request lacking `category` / `severity` / `outcome`
/ `payload` yields envelope fields `general` / `info` / `success` / the
empty mapping; a present `outcome` or `payload` is always carried, and
a present `category` or `severity` is carried when non-empty (a
present-but-empty string falls back to the default). -/
theorem claim_C3 (cfg : ClientConfig) (e : AuditEvent) :
    (e.category = none → (buildEnvelope cfg e).event_category = "general") ∧
    (e.severity = none → (buildEnvelope cfg e).severity = "info") ∧
    (e.outcome = none → (buildEnvelope cfg e).outcome = Outcome.success) ∧
    (e.payload = none → (buildEnvelope cfg e).payload = []) ∧
    (∀ s : String, e.category = some s → s ≠ "" → (buildEnvelope cfg e).event_category = s) ∧
    (∀ s : String, e.severity = some s → s ≠ "" → (buildEnvelope cfg e).severity = s) ∧
    (∀ o : Outcome, e.outcome = some o → (buildEnvelope cfg e).outcome = o) ∧
    (∀ p : List (String × JsValue), e.payload = some p → (buildEnvelope cfg e).payload = p) := by
  refine ⟨fun h => ?_, fun h => ?_, fun h => ?_, fun h => ?_,
          fun s h hne => ?_, fun s h hne => ?_, fun o h => ?_, fun p h => ?_⟩ <;>
    simp [buildEnvelope, orDefault, outcomeOrSuccess, payloadOrEmpty, h] <;>
    simp [hne]

/-- C3 witness: the defaults on a minimal request, and the supplied
values on a fully specified request with non-empty strings. -/
theorem claim_C3_witness :
    (buildEnvelope defaultConfig sampleEvent).event_category = "general" ∧
    (buildEnvelope defaultConfig sampleEvent).severity = "info" ∧
    (buildEnvelope defaultConfig sampleEvent).outcome = Outcome.success ∧
    (buildEnvelope defaultConfig sampleEvent).payload = [] ∧
    (buildEnvelope defaultConfig
      { event_type := "t", action := "a", category := some ("auth"),
        severity := some ("warning"), outcome := some Outcome.blocked,
        payload := some [("k", JsValue.num 1)] }).event_category = "auth" ∧
    (buildEnvelope defaultConfig
      { event_type := "t", action := "a", category := some ("auth"),
        severity := some ("warning"), outcome := some Outcome.blocked,
        payload := some [("k", JsValue.num 1)] }).severity = "warning" ∧
    (buildEnvelope defaultConfig
      { event_type := "t", action := "a", category := some ("auth"),
        severity := some ("warning"), outcome := some Outcome.blocked,
        payload := some [("k", JsValue.num 1)] }).outcome = Outcome.blocked ∧
    (buildEnvelope defaultConfig
      { event_type := "t", action := "a", category := some ("auth"),
        severity := some ("warning"), outcome := some Outcome.blocked,
        payload := some [("k", JsValue.num 1)] }).payload = [("k", JsValue.num 1)] :=
  ⟨(claim_C3 defaultConfig sampleEvent).1 rfl,
   (claim_C3 defaultConfig sampleEvent).2.1 rfl,
   (claim_C3 defaultConfig sampleEvent).2.2.1 rfl,
   (claim_C3 defaultConfig sampleEvent).2.2.2.1 rfl,
   (claim_C3 defaultConfig
     { event_type := "t", action := "a", category := some ("auth"),
       severity := some ("warning"), outcome := some Outcome.blocked,
       payload := some [("k", JsValue.num 1)] }).2.2.2.2.1 ("auth") rfl (by decide),
   (claim_C3 defaultConfig
     { event_type := "t", action := "a", category := some ("auth"),
       severity := some ("warning"), outcome := some Outcome.blocked,
       payload := some [("k", JsValue.num 1)] }).2.2.2.2.2.1 ("warning") rfl (by decide),
   (claim_C3 defaultConfig
     { event_type := "t", action := "a", category := some ("auth"),
       severity := some ("warning"), outcome := some Outcome.blocked,
       payload := some [("k", JsValue.num 1)] }).2.2.2.2.2.2.1 Outcome.blocked rfl,
   (claim_C3 defaultConfig
     { event_type := "t", action := "a", category := some ("auth"),
       severity := some ("warning"), outcome := some Outcome.blocked,
       payload := some [("k", JsValue.num 1)] }).2.2.2.2.2.2.2 [("k", JsValue.num 1)] rfl⟩

/-- C4: when the envelope serializes and the HTTP call completes with a
response, `logEvent` returns `response.ok`, which is `true` exactly when
the status lies in 200-299; and the result depends only on the status,
never on the response body. -/
theorem claim_C4 (cfg : ClientConfig) (e : AuditEvent) (t : String) (r : Response)
    (h : ∃ b : String, serializeEnvelope (buildEnvelope cfg e) = Except.ok b) :
    (logEvent cfg e t (Except.ok r)).result = Except.ok (Response.ok r) ∧
    (Response.ok r = true ↔ 200 ≤ r.status ∧ r.status ≤ 299) ∧
    (∀ r2 : Response, r2.status = r.status →
      (logEvent cfg e t (Except.ok r2)).result = (logEvent cfg e t (Except.ok r)).result) := by
  obtain ⟨b, hb⟩ := h
  refine ⟨?_, ?_, ?_⟩
  · simp [logEvent, hb]
  · simp [Response.ok]
  · intro r2 hr
    simp [logEvent, hb, Response.ok, hr]

/-- C4 witness: status 201 is accepted (`true`), status 500 is rejected
(`false`), and a different response body leaves the result unchanged. -/
theorem claim_C4_witness :
    ((logEvent defaultConfig sampleEvent "T" (Except.ok { status := 201 })).result
        = Except.ok (Response.ok { status := 201 }) ∧
     (Response.ok { status := 201 } = true ↔ 200 ≤ 201 ∧ 201 ≤ 299) ∧
     (logEvent defaultConfig sampleEvent "T"
        (Except.ok { status := 201, respBody := "ignored" })).result
       = (logEvent defaultConfig sampleEvent "T" (Except.ok { status := 201 })).result) ∧
    ((logEvent defaultConfig sampleEvent "T" (Except.ok { status := 500 })).result
        = Except.ok (Response.ok { status := 500 }) ∧
     Response.ok { status := 500 } = false) :=
  ⟨⟨(claim_C4 defaultConfig sampleEvent ("T") { status := 201 }
       ⟨sampleBody, sample_serialize⟩).1,
    (claim_C4 defaultConfig sampleEvent ("T") { status := 201 }
       ⟨sampleBody, sample_serialize⟩).2.1,
    (claim_C4 defaultConfig sampleEvent ("T") { status := 201 }
       ⟨sampleBody, sample_serialize⟩).2.2 { status := 201, respBody := "ignored" } rfl⟩,
   ⟨(claim_C4 defaultConfig sampleEvent ("T") { status := 500 }
       ⟨sampleBody, sample_serialize⟩).1,
    by decide⟩⟩

/-- C5: `logApiCall` delegates to `logEvent` with a request carrying
`event_type` api.call, `action` built from the method and endpoint,
`resource_type` api, `resource_id` the endpoint, the status code as
payload, the caller's `userId` as `actor_id`, and outcome success
exactly when the status code is below 400. -/
theorem claim_C5 (cfg : ClientConfig) (endpoint : String) (method : String)
    (statusCode : Int) (userId : Option String) (t : String)
    (fr : Except String Response) :
    ∃ req : AuditEvent,
      logApiCall cfg endpoint method statusCode userId t fr = logEvent cfg req t fr ∧
      req.event_type = "api.call" ∧
      req.action = method ++ " " ++ endpoint ∧
      req.resource_type = some ("api") ∧
      req.resource_id = some endpoint ∧
      req.actor_id = userId ∧
      req.payload = some [("status_code", JsValue.num statusCode)] ∧
      req.outcome = some (if statusCode < 400 then Outcome.success else Outcome.failure) :=
  ⟨_, rfl, rfl, rfl, rfl, rfl, rfl, rfl, rfl⟩

/-- C6: `logLogin` delegates to `logEvent` with `event_type` auth.login,
category auth, the user as `actor_id`, the optional ip as payload, and
outcome/severity chosen by the success flag: success and info when
true, failure and warning when false. -/
theorem claim_C6 (cfg : ClientConfig) (userId : String) (success : Bool)
    (ip : Option String) (t : String) (fr : Except String Response) :
    ∃ req : AuditEvent,
      logLogin cfg userId success ip t fr = logEvent cfg req t fr ∧
      req.event_type = "auth.login" ∧
      req.action = "login" ∧
      req.category = some ("auth") ∧
      req.actor_id = some userId ∧
      req.payload = some [("ip", jsOfOptString ip)] ∧
      req.outcome = some (if success then Outcome.success else Outcome.failure) ∧
      req.severity = some (if success then "info" else "warning") :=
  ⟨_, rfl, rfl, rfl, rfl, rfl, rfl, rfl, rfl⟩

/-- C7 counterexample: a request whose payload holds a BigInt value.
`JSON.stringify` throws before the `try` block is entered, so the
`fetch` call is never reached and no HTTP POST is issued. -/
theorem claim_C7_counterexample :
    (logEvent defaultConfig bigintEvent "2026-10-11T01:00:00.000Z"
        (Except.ok { status := 201 })).request = none :=
  rfl

/-- C7 (amended): for every request whose envelope JSON-serializes
successfully, `logEvent` hands its single `fetch` call an HTTP POST to
the gateway URL suffixed with the audit path, with the Content-Type,
X-Service-Name and X-Service-Timestamp headers and the serialized
envelope as body; a request whose envelope fails to serialize issues no
POST at all. -/
theorem claim_C7 (cfg : ClientConfig) (e : AuditEvent) (t : String)
    (fr : Except String Response) (b : String)
    (hb : serializeEnvelope (buildEnvelope cfg e) = Except.ok b) :
    (logEvent cfg e t fr).request =
      some { url := cfg.gatewayUrl ++ "/api/v1/audit/events"
             method := "POST"
             headers := [("Content-Type", "application/json"),
                         ("X-Service-Name", cfg.serviceName),
                         ("X-Service-Timestamp", t)]
             body := b } :=
  logEvent_request_ok cfg e t fr b hb

/-- C7 witness: the concrete POST request produced for the minimal
request under the default configuration. -/
theorem claim_C7_witness :
    (logEvent defaultConfig sampleEvent "2026-10-11T00:00:00.000Z"
        (Except.ok { status := 201 })).request =
      some { url := "http://localhost:8000" ++ "/api/v1/audit/events"
             method := "POST"
             headers := [("Content-Type", "application/json"),
                         ("X-Service-Name", "smsly-frontend"),
                         ("X-Service-Timestamp", "2026-10-11T00:00:00.000Z")]
             body := sampleBody } :=
  claim_C7 defaultConfig sampleEvent ("2026-10-11T00:00:00.000Z")
    (Except.ok { status := 201 }) sampleBody sample_serialize

/-- C8: envelope construction is deterministic — two calls with the same
request and configuration but different timestamps and fetch outcomes
produce the same body (the serialized envelope), the same URL, the same
HTTP method, and the same headers apart from X-Service-Timestamp. -/
theorem claim_C8 (cfg : ClientConfig) (e : AuditEvent) (t1 t2 : String)
    (fr1 fr2 : Except String Response) :
    ((logEvent cfg e t1 fr1).request).map HttpRequest.body
      = ((logEvent cfg e t2 fr2).request).map HttpRequest.body ∧
    ((logEvent cfg e t1 fr1).request).map HttpRequest.url
      = ((logEvent cfg e t2 fr2).request).map HttpRequest.url ∧
    ((logEvent cfg e t1 fr1).request).map HttpRequest.method
      = ((logEvent cfg e t2 fr2).request).map HttpRequest.method ∧
    ((logEvent cfg e t1 fr1).request).map
        (fun r => r.headers.filter (fun p => p.1 != "X-Service-Timestamp"))
      = ((logEvent cfg e t2 fr2).request).map
        (fun r => r.headers.filter (fun p => p.1 != "X-Service-Timestamp")) := by
  cases hs : serializeEnvelope (buildEnvelope cfg e) with
  | error err =>
    rw [(logEvent_serialize_err cfg e t1 fr1 err hs).1,
        (logEvent_serialize_err cfg e t2 fr2 err hs).1]
    exact ⟨rfl, rfl, rfl, rfl⟩
  | ok b =>
    rw [logEvent_request_ok cfg e t1 fr1 b hs, logEvent_request_ok cfg e t2 fr2 b hs]
    refine ⟨rfl, rfl, rfl, ?_⟩
    simp

/-- C9: `logPageView` delegates to `logEvent` with `resource_type` page
and `resource_id` the page argument, alongside `event_type` page.view,
`action` view, category general, and the caller's `userId` as
`actor_id`. -/
theorem claim_C9 (cfg : ClientConfig) (page : String) (userId : Option String)
    (t : String) (fr : Except String Response) :
    ∃ req : AuditEvent,
      logPageView cfg page userId t fr = logEvent cfg req t fr ∧
      req.resource_type = some ("page") ∧
      req.resource_id = some page ∧
      req.event_type = "page.view" ∧
      req.action = "view" ∧
      req.category = some ("general") ∧
      req.actor_id = userId :=
  ⟨_, rfl, rfl, rfl, rfl, rfl, rfl, rfl⟩

/-- C10: a `category` or `severity` supplied as the empty string is
treated exactly like an absent one — the `||` defaulting replaces the
falsy empty string with `general` and `info` respectively. -/
theorem claim_C10 (cfg : ClientConfig) (e : AuditEvent) :
    (e.category = some ("") → (buildEnvelope cfg e).event_category = "general") ∧
    (e.severity = some ("") → (buildEnvelope cfg e).severity = "info") := by
  constructor <;> (intro h; simp [buildEnvelope, orDefault, h])

/-- C10 witness: empty-string `category` and `severity` both fall back
to their defaults. -/
theorem claim_C10_witness :
    (buildEnvelope defaultConfig
      { event_type := "t", action := "a", category := some (""),
        severity := some ("") }).event_category = "general" ∧
    (buildEnvelope defaultConfig
      { event_type := "t", action := "a", category := some (""),
        severity := some ("") }).severity = "info" :=
  ⟨(claim_C10 defaultConfig
      { event_type := "t", action := "a", category := some (""),
        severity := some ("") }).1 rfl,
   (claim_C10 defaultConfig
      { event_type := "t", action := "a", category := some (""),
        severity := some ("") }).2 rfl⟩

end Audit
